import Mathlib

/-!
Shallow embedding of the WhatsApp widget backend (Node/Express + Twilio +
Mongoose) and proofs about its outbound delivery pipeline, status-callback
reconciliation and realtime fanout.

Modelling conventions:
- JavaScript strings are modelled as `List Char` (`Str`); `Option Str` models
  a possibly-undefined string argument, and JS truthiness of a string is
  "defined and non-empty".
- Dates (`new Date()`) are modelled as abstract `Nat` instants passed in as a
  `now` parameter to each request handler.
- The Twilio client is modelled as a function `Nat → AttemptResult` giving the
  outcome of the n-th `twilioClient.messages.create` call.
- MongoDB `$set` updates are modelled as record updates; `updateOne` updates
  the first document matching the filter.
-/

namespace WhatsappWidget

/-- Strings of the embedded program, modelled as lists of characters. -/
abbrev Str := List Char

/-- Boolean test that `p` is an initial segment of `s` (JS `String.startsWith`). -/
def strStartsWith : Str → Str → Bool
  | _, [] => true
  | [], _ :: _ => false
  | a :: as, b :: bs => a == b && strStartsWith as bs

/-- Leading-whitespace removal, the left half of JS `String.trim`. -/
def trimLeft (s : Str) : Str := s.dropWhile Char.isWhitespace

/-- Trailing-whitespace removal, the right half of JS `String.trim`. -/
def trimRight (s : Str) : Str := (s.reverse.dropWhile Char.isWhitespace).reverse

/-- Model of JS `String.trim`: strip whitespace from both ends. -/
def strTrim (s : Str) : Str := trimRight (trimLeft s)

/-- Lower-casing of a string (JS `String.toLowerCase`), character-wise. -/
def strToLower (s : Str) : Str := s.map Char.toLower

/-- Characters kept by the regex replace `/[^\d+]/g` in `formatPhoneNumber`. -/
def isPlusOrDigit (c : Char) : Bool := c.isDigit || c == '+'

/-- The channel marker `whatsapp:` required by the Twilio WhatsApp API. -/
def waMarker : Str := "whatsapp:".data

/-- UAE-specific disambiguation of a bare digit string lacking a leading `+`
(messageRoutes.js lines 97-110).  The country code 971 is hardcoded; note the
branch for a leading `0` additionally requires `length > 1`, and the last two
source branches (`digitsOnly.length >= 9` and the fallback) produce the same
result and are kept separate to mirror the source. -/
def uaeDisambiguate (digitsOnly : Str) : Str :=
  if strStartsWith digitsOnly "971".data then '+' :: digitsOnly
  else if strStartsWith digitsOnly "0".data ∧ digitsOnly.length > 1 then
    "+971".data ++ digitsOnly.drop 1
  else if digitsOnly.length ≥ 9 then "+971".data ++ digitsOnly
  else "+971".data ++ digitsOnly

/-- The claimed disambiguation mapping, written from the words of claim C10:
digits already starting with 971 get `+` prepended; a leading `0` is dropped
and `+971` prepended; any other digit string gets `+971` prepended.  Used only
to compare against the source-derived `uaeDisambiguate`. -/
def uaeDisambiguateClaim (digitsOnly : Str) : Str :=
  if strStartsWith digitsOnly "971".data then '+' :: digitsOnly
  else if strStartsWith digitsOnly "0".data then "+971".data ++ digitsOnly.drop 1
  else "+971".data ++ digitsOnly

/-- Normalization of the cleaned number depending on whether it starts with
`+` (messageRoutes.js lines 92-114).  With a leading `+` the remainder is
stripped of non-digits; otherwise the UAE disambiguation applies to the digits
only. -/
def plusCleanup (cleanNumber : Str) : Str :=
  if strStartsWith cleanNumber ['+'] then
    '+' :: (cleanNumber.drop 1).filter Char.isDigit
  else uaeDisambiguate (cleanNumber.filter Char.isDigit)

/-- The digit payload checked by the final regex `/^\d{10,15}$/` after
`replace(/^\+/, '')` (messageRoutes.js line 117). -/
def digitsPart (cleanNumber : Str) : Str :=
  if strStartsWith cleanNumber ['+'] then cleanNumber.drop 1 else cleanNumber

/-- Model of `formatPhoneNumber` (messageRoutes.js lines 62-125).
`none` input models the `!number || typeof number !== 'string'` guard; an
empty string is likewise falsy.  An input that, once trimmed, already starts
with `whatsapp:` is returned as-is (line 71-73), which makes the later
`whatsapp:+`-handling on lines 76-87 of the source unreachable, so it is not
modelled.  Otherwise non-digit non-plus characters are removed, a missing `+`
is repaired via the hardcoded UAE rules, and the result must carry 10-15
digits or the function rejects with `null`. -/
def formatPhoneNumber : Option Str → Option Str
  | none => none
  | some n =>
    if n.isEmpty then none
    else
      let t := strTrim n
      if strStartsWith t waMarker then some t
      else
        let c := plusCleanup (t.filter isPlusOrDigit)
        let d := digitsPart c
        if 10 ≤ d.length ∧ d.length ≤ 15 ∧ d.all Char.isDigit then
          some (waMarker ++ c)
        else none

/-- Model of `stripWhatsappPrefix` (messageRoutes.js lines 215-218), renamed
to avoid clashing with Lean notation keywords: remove one leading `whatsapp:`
occurrence. -/
def stripWhatsappMarker (s : Str) : Str :=
  if strStartsWith s waMarker then s.drop 9 else s

/-! ## Gateway client and retry scheduler -/

/-- Failure object thrown by the Twilio client: the numeric Twilio error
`code`, the HTTP `status` when present, and the error `message`. -/
structure GError where
  code : Option Int
  status : Option Int
  message : Option Str
deriving DecidableEq

/-- Outcome of one `twilioClient.messages.create` call: either a created
message carrying its gateway-assigned `sid`, or a thrown error. -/
inductive AttemptResult where
  | ok (sid : Str)
  | err (e : GError)
deriving DecidableEq

/-- Structured result returned by `sendWithRetry`
(`{ success: true, message }` or `{ success: false, error }`). -/
inductive SendResult where
  | ok (sid : Str)
  | err (e : GError)
deriving DecidableEq

/-- The retryable Twilio error codes listed on messageRoutes.js line 40:
rate limit, connection, timeout, queue full. -/
def retryableCodes : List Int := [20429, 20003, 20005, 21614]

/-- Retryability classification (messageRoutes.js line 41):
`retryableErrors.includes(error.code) || error.status >= 500`.  A missing
`code` is not in the list and a missing `status` fails the `>= 500`
comparison, matching JS semantics on `undefined`. -/
def isRetryable (e : GError) : Bool :=
  (match e.code with
   | some c => retryableCodes.contains c
   | none => false) ||
  (match e.status with
   | some s => 500 ≤ s
   | none => false)

/-- Recursion core of `sendWithRetry` (messageRoutes.js lines 30-52).  The
source guard `retryCount < maxRetries` is encoded by the explicit remaining
`budget = maxRetries - retryCount` so the recursion is structural; the
returned triple is the source's result together with the instrumented number
of gateway calls made and the list of backoff delays awaited (in
milliseconds, `Math.pow(2, retryCount) * 1000`). -/
def sendWithRetryAux (g : Nat → AttemptResult) : Nat → Nat → SendResult × Nat × List Nat
  | retryCount, budget =>
    match g retryCount with
    | .ok sid => (.ok sid, 1, [])
    | .err e =>
      if isRetryable e then
        match budget with
        | 0 => (.err e, 1, [])
        | b + 1 =>
          let rest := sendWithRetryAux g (retryCount + 1) b
          (rest.1, rest.2.1 + 1, 2 ^ retryCount * 1000 :: rest.2.2)
      else (.err e, 1, [])

/-- Model of `sendWithRetry(messageOptions, retryCount = 0, maxRetries = 3)`:
the message options are fixed, so the gateway behaviour is abstracted as the
per-attempt outcome function `g`. -/
def sendWithRetry (g : Nat → AttemptResult) (retryCount : Nat) (maxRetries : Nat) :
    SendResult × Nat × List Nat :=
  sendWithRetryAux g retryCount (maxRetries - retryCount)

/-! ## Message records -/

/-- A value stored in the `errorCode` field: the Twilio numeric code as
received, or a default string such as `UNKNOWN_ERROR`. -/
inductive ErrVal where
  | num (n : Int)
  | str (s : Str)
deriving DecidableEq

/-- Stored message document, following the Mongoose `Message` schema and the
`messageData` object built in the send routes.  Dates are `Nat` instants;
optional dates are `Option Nat`.  The `from`/`to` fields are named
`fromNumber`/`toNumber` because `from` and `to` are Lean keywords. -/
structure MessageRecord where
  messageSid : Str
  contactId : Str
  contactName : Str
  fromName : Str
  message : Str
  mediaUrl : List Str
  direction : Str
  status : Str
  fromNumber : Str
  toNumber : Str
  messageType : Str
  isRead : Bool
  sentAt : Option Nat
  deliveredAt : Option Nat
  readAt : Option Nat
  failedAt : Option Nat
  errorCode : Option ErrVal
  errorMessage : Option Str
  timestamp : Nat
  createdAt : Nat
  updatedAt : Nat
deriving DecidableEq

/-- The `error.code || 'UNKNOWN_ERROR'` defaulting on messageRoutes.js line
359; a missing or zero (falsy) code falls back to the string. -/
def errCodeOrDefault (e : GError) : ErrVal :=
  match e.code with
  | some c => if c ≠ 0 then .num c else .str "UNKNOWN_ERROR".data
  | none => .str "UNKNOWN_ERROR".data

/-- The `error.message || 'Unknown error occurred'` defaulting on
messageRoutes.js line 360; a missing or empty message falls back. -/
def errMsgOrDefault (e : GError) : Str :=
  match e.message with
  | some m => if m.isEmpty then "Unknown error occurred".data else m
  | none => "Unknown error occurred".data

/-! ## The POST /send-message route -/

/-- The `mediaUrl` request field: JS accepts a single URL string or an array
of URLs (`validateMediaUrls`). -/
inductive MediaArg where
  | single (s : Str)
  | many (l : List Str)
deriving DecidableEq

/-- JS truthiness of a possibly-undefined string: defined and non-empty. -/
def optTruthy : Option Str → Bool
  | none => false
  | some s => !s.isEmpty

/-- JS truthiness of the `mediaUrl` argument: an array is always truthy
(even when empty), a string is truthy when non-empty. -/
def mediaTruthy : Option MediaArg → Bool
  | none => false
  | some (.single s) => !s.isEmpty
  | some (.many _) => true

/-- Model of `validateMediaUrls` (messageRoutes.js lines 134-152): each entry
is trimmed, kept only when non-empty and accepted by the URL parser.  URL
parsing (`new URL(...)`) is abstracted as the predicate `urlValid`. -/
def validateMediaUrls (urlValid : Str → Bool) : Option MediaArg → List Str
  | none => []
  | some arg =>
    let urls := match arg with | .single s => [s] | .many l => l
    (urls.map strTrim).filter (fun u => !u.isEmpty && urlValid u)

/-- Body of a POST /send-message request; absent fields are `none`.  The
source's `to` field is named `toArg` because `to` is a Lean keyword. -/
structure SendRequest where
  contactId : Option Str
  toArg : Option Str
  body : Option Str
  mediaUrl : Option MediaArg
  contactName : Option Str
  fromName : Option Str

/-- Observable outcome of the send-message route: the HTTP status code, the
`success` flag of the JSON envelope, and the message document as it stands
after the handler finishes (`none` when no document was ever created). -/
structure RouteOutcome where
  httpStatus : Nat
  success : Bool
  record : Option MessageRecord
deriving DecidableEq

/-- The `field?.trim() || 'Default'` pattern used for `contactName` and
`fromName` in `messageData` (messageRoutes.js lines 297-298). -/
def strOrDefault (o : Option Str) (d : Str) : Str :=
  match o with
  | some s => if (strTrim s).isEmpty then d else strTrim s
  | none => d

/-- Model of `router.post('/send-message')` (messageRoutes.js lines 232-380).
Parameters: `urlValid` abstracts URL parsing, `envFrom` is
`process.env.TWILIO_FROM_NUMBER`, `g` the per-attempt gateway outcome,
`uuid` the generated UUID for the interim identifier, `now` the current
instant.  Validation failures return before any document exists; after
`createMessageDocument` the document is updated according to the
`sendWithRetry` outcome, with a 202 success envelope on success and a 500
error envelope on failure. -/
def sendMessageRoute (urlValid : Str → Bool) (envFrom : Option Str)
    (g : Nat → AttemptResult) (uuid : Str) (now : Nat) (req : SendRequest) :
    RouteOutcome :=
  if !optTruthy req.contactId then ⟨400, false, none⟩
  else if !optTruthy req.toArg then ⟨400, false, none⟩
  else if !optTruthy req.body && !mediaTruthy req.mediaUrl then ⟨400, false, none⟩
  else
    match formatPhoneNumber req.toArg with
    | none => ⟨400, false, none⟩
    | some formattedTo =>
      match formatPhoneNumber envFrom with
      | none => ⟨500, false, none⟩
      | some fromNumber =>
        let validUrls := validateMediaUrls urlValid req.mediaUrl
        if mediaTruthy req.mediaUrl && validUrls.isEmpty then ⟨400, false, none⟩
        else
          let rec0 : MessageRecord :=
            { messageSid := "tw_".data ++ uuid
              contactId := strTrim (req.contactId.getD [])
              contactName := strOrDefault req.contactName "Unknown".data
              fromName := strOrDefault req.fromName "Salesforce User".data
              message := strTrim (req.body.getD [])
              mediaUrl := validUrls
              direction := "outbound".data
              status := "queued".data
              fromNumber := stripWhatsappMarker fromNumber
              toNumber := stripWhatsappMarker formattedTo
              messageType := if validUrls.isEmpty then "text".data else "media".data
              isRead := false
              sentAt := none, deliveredAt := none, readAt := none, failedAt := none
              errorCode := none, errorMessage := none
              timestamp := now, createdAt := now, updatedAt := now }
          match (sendWithRetry g 0 3).1 with
          | .ok sid =>
            ⟨202, true, some { rec0 with
              messageSid := sid, status := "sent".data,
              sentAt := some now, updatedAt := now }⟩
          | .err e =>
            ⟨500, false, some { rec0 with
              status := "failed".data,
              errorCode := some (errCodeOrDefault e),
              errorMessage := some (errMsgOrDefault e),
              failedAt := some now, updatedAt := now }⟩

/-! ## The POST /webhook/status route (status reconciliation) -/

/-- Relevant fields of a Twilio status callback body. -/
structure StatusCb where
  MessageStatus : Str
  ErrorCode : Option Str
  ErrorMessage : Option Str
deriving DecidableEq

/-- The `req.body.ErrorCode || 'UNKNOWN'` style defaulting used by the status
webhook: a missing or empty string falls back to the default. -/
def strFalsyOr (o : Option Str) (d : Str) : Str :=
  match o with
  | some s => if s.isEmpty then d else s
  | none => d

/-- One application of the status webhook's `$set` update to a matched
document (webhookRoutes.js lines 169-184): the stored status becomes the
lowercased callback status unconditionally, `updatedAt` is refreshed, and the
timestamp, read-flag and error fields keyed to the exact callback status are
(re)stamped with the processing time `now`. -/
def statusUpdate (cb : StatusCb) (now : Nat) (m : MessageRecord) : MessageRecord :=
  let m1 := { m with status := strToLower cb.MessageStatus, updatedAt := now }
  let m2 := if cb.MessageStatus = "delivered".data then
      { m1 with deliveredAt := some now } else m1
  let m3 := if cb.MessageStatus = "read".data then
      { m2 with readAt := some now, isRead := true } else m2
  if cb.MessageStatus = "failed".data ∨ cb.MessageStatus = "undelivered".data then
    { m3 with failedAt := some now,
              errorCode := some (.str (strFalsyOr cb.ErrorCode "UNKNOWN".data)),
              errorMessage := some (strFalsyOr cb.ErrorMessage "Delivery failed".data) }
  else m3

/-- Mongo `updateOne`: apply `f` to the first document whose `messageSid`
matches `sid`; a store with no match is left unchanged. -/
def updateFirstMatching : List MessageRecord → Str → (MessageRecord → MessageRecord) → List MessageRecord
  | [], _, _ => []
  | m :: ms, sid, f =>
    if m.messageSid = sid then f m :: ms else m :: updateFirstMatching ms sid f

/-- Body of a POST /webhook/status request as far as the handler reads it. -/
structure StatusBody where
  MessageSid : Option Str
  MessageStatus : Option Str
  ErrorCode : Option Str
  ErrorMessage : Option Str

/-- Model of `router.post('/status')` (webhookRoutes.js lines 157-197):
missing or falsy `MessageSid`/`MessageStatus` is a 400; otherwise the update
is applied to the matching document (if any) and the handler acknowledges
with 200 regardless of whether a document matched. -/
def processStatusWebhook (store : List MessageRecord) (body : StatusBody) (now : Nat) :
    Nat × List MessageRecord :=
  match body.MessageSid, body.MessageStatus with
  | some sid, some st =>
    if sid.isEmpty || st.isEmpty then (400, store)
    else (200, updateFirstMatching store sid
      (statusUpdate ⟨st, body.ErrorCode, body.ErrorMessage⟩ now))
  | _, _ => (400, store)

/-- Fold applying a sequence of status callbacks (each with its processing
instant) to a single stored document. -/
def applyCallbacks (m : MessageRecord) (cbs : List (StatusCb × Nat)) : MessageRecord :=
  cbs.foldl (fun acc p => statusUpdate p.1 p.2 acc) m

/-- Rank of a status in the ordered sequence written in the spec,
`queued < sending < sent < delivered < read`.  Claim-side definition used
only to state what claim C1 predicts. -/
def statusRank (s : Str) : Nat :=
  if s = "sending".data then 1
  else if s = "sent".data then 2
  else if s = "delivered".data then 3
  else if s = "read".data then 4
  else 0

/-- Maximum of two statuses under `statusRank` (claim-side). -/
def statusMax (a b : Str) : Str := if statusRank a ≤ statusRank b then b else a

/-- Maximum status of a list of reported statuses starting from the stored
one (claim-side definition for claim C1). -/
def statusMaxList (start : Str) (l : List Str) : Str := l.foldl statusMax start

/-- Claim-side predicate for claim C2: two stored records agree on every
field except possibly `updatedAt`. -/
def eqExceptUpdatedAt (a b : MessageRecord) : Prop :=
  a.messageSid = b.messageSid ∧ a.contactId = b.contactId ∧
  a.contactName = b.contactName ∧ a.fromName = b.fromName ∧
  a.message = b.message ∧ a.mediaUrl = b.mediaUrl ∧
  a.direction = b.direction ∧ a.status = b.status ∧
  a.fromNumber = b.fromNumber ∧ a.toNumber = b.toNumber ∧
  a.messageType = b.messageType ∧ a.isRead = b.isRead ∧
  a.sentAt = b.sentAt ∧ a.deliveredAt = b.deliveredAt ∧
  a.readAt = b.readAt ∧ a.failedAt = b.failedAt ∧
  a.errorCode = b.errorCode ∧ a.errorMessage = b.errorMessage ∧
  a.timestamp = b.timestamp ∧ a.createdAt = b.createdAt

instance (a b : MessageRecord) : Decidable (eqExceptUpdatedAt a b) := by
  unfold eqExceptUpdatedAt; infer_instance

/-! ## Realtime fanout (socket handler in src/utils, second file of logger.js) -/

/-- Per-connection bookkeeping mirroring `clientInfo.rooms`. -/
structure ClientState where
  rooms : List Str
deriving DecidableEq

/-- Acknowledgement sent to a `join` request:
`{ success: true, room }` or `{ success: false, error }`. -/
inductive JoinAck where
  | okJoin (room : Str)
  | errJoin (msg : Str)
deriving DecidableEq

/-- Model of the `socket.on('join')` handler (socket handler lines 38-52):
a falsy `contactId` is acknowledged with a structured error and no state
change; otherwise the connection leaves every previously joined room, joins
the requested one, and the ack reports success.  The connection registry is a
association list from socket id to `ClientState`. -/
def joinHandler (clients : List (Str × ClientState)) (sid : Str)
    (contactId : Option Str) : List (Str × ClientState) × JoinAck :=
  match contactId with
  | none => (clients, .errJoin "contactId is required".data)
  | some cid =>
    if cid.isEmpty then (clients, .errJoin "contactId is required".data)
    else
      (clients.map (fun p => if p.1 = sid then (p.1, ⟨[cid]⟩) else p), .okJoin cid)

/-- Socket ids reached by `io.to(room).emit(...)`: every connection currently
a member of `room`. -/
def broadcastReceivers (clients : List (Str × ClientState)) (room : Str) : List Str :=
  (clients.filter (fun p => p.2.rooms.contains room)).map Prod.fst

/-! ## Concrete fixtures used by witnesses and counterexamples -/

/-- A retryable rate-limit failure (Twilio code 20429). -/
def eRate : GError := ⟨some 20429, none, some "Too Many Requests".data⟩

/-- A gateway on which every attempt fails with the rate-limit error. -/
def gAlwaysFail : Nat → AttemptResult := fun _ => .err eRate

/-- A gateway failing the first two attempts and then succeeding. -/
def gFailTwice : Nat → AttemptResult :=
  fun n => if n < 2 then .err eRate else .ok "SM123".data

/-- A gateway succeeding on the first attempt. -/
def gOkFirst : Nat → AttemptResult := fun _ => .ok "SM123".data

/-- A URL validator accepting nothing; media is absent in the fixtures. -/
def urlNone : Str → Bool := fun _ => false

/-- A valid configured Twilio sender number. -/
def envFromEx : Option Str := some "+14155238886".data

/-- A well-formed send request used by witnesses. -/
def reqEx : SendRequest :=
  { contactId := some "003ABC".data, toArg := some "+15551234567".data,
    body := some "hi".data, mediaUrl := none, contactName := none, fromName := none }

/-- A stored outbound message document used by status-webhook scenarios. -/
def m0 : MessageRecord :=
  { messageSid := "SM1".data, contactId := "003A".data, contactName := "C".data,
    fromName := "F".data, message := "hi".data, mediaUrl := [],
    direction := "outbound".data, status := "queued".data,
    fromNumber := "+14155238886".data, toNumber := "+15551234567".data,
    messageType := "text".data, isRead := false,
    sentAt := some 0, deliveredAt := none, readAt := none, failedAt := none,
    errorCode := none, errorMessage := none, timestamp := 0, createdAt := 0, updatedAt := 0 }

/-- Status callback reporting `delivered`, no error fields. -/
def cbDelivered : StatusCb := ⟨"delivered".data, none, none⟩

/-- Status callback reporting `sent`, no error fields. -/
def cbSent : StatusCb := ⟨"sent".data, none, none⟩

/-- A request with contact id and recipient but no body, media or any other
content. -/
def reqNoContent : SendRequest :=
  { contactId := some "003ABC".data, toArg := some "+15551234567".data,
    body := none, mediaUrl := none, contactName := none, fromName := none }

/-- A request whose recipient `"abc"` carries no digits at all. -/
def reqAbc : SendRequest :=
  { contactId := some "003ABC".data, toArg := some "abc".data,
    body := some "hi".data, mediaUrl := none, contactName := none, fromName := none }

/-- A registry with one connection already subscribed to conversation C1. -/
def clientsEx : List (Str × ClientState) := [("s1".data, ⟨["C1".data]⟩)]

/-- Claim-side predicate: every lifecycle timestamp set in `a` is still set
in `b`. -/
def timestampsKept (a b : MessageRecord) : Prop :=
  (a.sentAt.isSome = true → b.sentAt.isSome = true) ∧
  (a.deliveredAt.isSome = true → b.deliveredAt.isSome = true) ∧
  (a.readAt.isSome = true → b.readAt.isSome = true) ∧
  (a.failedAt.isSome = true → b.failedAt.isSome = true)

/-! ## Unfolding lemmas for the retry scheduler -/

/-- A successful attempt ends the recursion with one call and no delays. -/
theorem aux_ok (g : Nat → AttemptResult) (rc b : Nat) (sid : Str)
    (hg : g rc = .ok sid) : sendWithRetryAux g rc b = (.ok sid, 1, []) := by
  rw [sendWithRetryAux.eq_def]; dsimp only; simp [hg]

/-- A non-retryable failure ends the recursion at once with that failure. -/
theorem aux_err_stop (g : Nat → AttemptResult) (rc b : Nat) (e : GError)
    (hg : g rc = .err e) (hr : isRetryable e = false) :
    sendWithRetryAux g rc b = (.err e, 1, []) := by
  rw [sendWithRetryAux.eq_def]; dsimp only; simp [hg, hr]

/-- With no remaining budget, any failure ends the recursion with that
failure — the last observed error, not a synthetic one. -/
theorem aux_err_exhaust (g : Nat → AttemptResult) (rc : Nat) (e : GError)
    (hg : g rc = .err e) :
    sendWithRetryAux g rc 0 = (.err e, 1, []) := by
  rw [sendWithRetryAux.eq_def]; dsimp only; simp [hg]

/-- A retryable failure with remaining budget recurses after the
`2 ^ retryCount * 1000` millisecond delay. -/
theorem aux_err_retry (g : Nat → AttemptResult) (rc b : Nat) (e : GError)
    (hg : g rc = .err e) (hr : isRetryable e = true) :
    sendWithRetryAux g rc (b + 1) =
      ((sendWithRetryAux g (rc + 1) b).1,
       (sendWithRetryAux g (rc + 1) b).2.1 + 1,
       2 ^ rc * 1000 :: (sendWithRetryAux g (rc + 1) b).2.2) := by
  conv_lhs => rw [sendWithRetryAux.eq_def]
  dsimp only
  simp [hg, hr]

/-- Every attempt before the last one made by the scheduler was a retryable
failure: the scheduler never retries past a success or a non-retryable
error. -/
theorem aux_calls_retryable (g : Nat → AttemptResult) :
    ∀ b rc i, i + 1 < (sendWithRetryAux g rc b).2.1 →
      ∃ e, g (rc + i) = .err e ∧ isRetryable e = true := by
  intro b
  induction b with
  | zero =>
    intro rc i h
    exfalso
    cases hg : g rc with
    | ok sid => rw [aux_ok g rc 0 sid hg] at h; simp at h
    | err e =>
      rw [aux_err_exhaust g rc e hg] at h
      simp at h
  | succ b ih =>
    intro rc i h
    cases hg : g rc with
    | ok sid => rw [aux_ok g rc (b+1) sid hg] at h; simp at h
    | err e =>
      cases hr : isRetryable e with
      | false =>
        rw [aux_err_stop g rc (b+1) e hg hr] at h
        simp at h
      | true =>
        cases i with
        | zero => exact ⟨e, by simpa using hg, hr⟩
        | succ j =>
          rw [aux_err_retry g rc b e hg hr] at h
          have h' : j + 1 < (sendWithRetryAux g (rc + 1) b).2.1 := by
            simpa using Nat.lt_of_succ_lt_succ h
          obtain ⟨e', he', hr'⟩ := ih (rc + 1) j h'
          refine ⟨e', ?_, hr'⟩
          have hidx : rc + 1 + j = rc + (j + 1) := by omega
          rwa [hidx] at he'

/-- C4: the retry scheduler retries only on failures classified retryable
(`retryableCodes` or a 5xx `status`); a non-retryable first failure
terminates immediately with that failure after one call; and when the budget
of 3 retries is exhausted the result carries the last observed failure
object unchanged, never a synthetic retries-exhausted error. -/
theorem claim4_retry_classification (g : Nat → AttemptResult) :
    (∀ e, g 0 = .err e → isRetryable e = false → sendWithRetry g 0 3 = (.err e, 1, [])) ∧
    (∀ i, i + 1 < (sendWithRetry g 0 3).2.1 →
      ∃ e, g i = .err e ∧ isRetryable e = true) ∧
    (∀ e0 e1 e2 e3, g 0 = .err e0 → g 1 = .err e1 → g 2 = .err e2 → g 3 = .err e3 →
      isRetryable e0 = true → isRetryable e1 = true → isRetryable e2 = true →
      (sendWithRetry g 0 3).1 = .err e3) := by
  refine ⟨?_, ?_, ?_⟩
  · intro e hg hr
    unfold sendWithRetry
    exact aux_err_stop g 0 3 e hg hr
  · intro i h
    have := aux_calls_retryable g 3 0 i (by simpa [sendWithRetry] using h)
    simpa using this
  · intro e0 e1 e2 e3 h0 h1 h2 h3 r0 r1 r2
    unfold sendWithRetry
    rw [aux_err_retry g 0 2 e0 h0 r0, aux_err_retry g 1 1 e1 h1 r1,
        aux_err_retry g 2 0 e2 h2 r2, aux_err_exhaust g 3 e3 h3]

/-- Witness for C4: a gateway failing every attempt with the rate-limit
error exhausts the budget and surfaces that same error. -/
theorem claim4_retry_classification_witness :
    (sendWithRetry gAlwaysFail 0 3).1 = .err eRate :=
  (claim4_retry_classification gAlwaysFail).2.2 eRate eRate eRate eRate
    rfl rfl rfl rfl (by decide) (by decide) (by decide)

/-- C5: for any sequence of `k ≤ 3` retryable failures followed by a
success, the scheduler returns that success, makes exactly `k + 1` gateway
calls, and awaits the delays 1000, 2000, 4000 ms (1, 2, 4 seconds) before
the first, second and third retry respectively. -/
theorem claim5_retry_success_count_delays (g : Nat → AttemptResult) (k : Nat) (sid : Str)
    (hk : k ≤ 3)
    (hfail : ∀ i, i < k → ∃ e, g i = .err e ∧ isRetryable e = true)
    (hok : g k = .ok sid) :
    sendWithRetry g 0 3 = (.ok sid, k + 1, [1000, 2000, 4000].take k) := by
  unfold sendWithRetry
  have hk4 : k = 0 ∨ k = 1 ∨ k = 2 ∨ k = 3 := by omega
  rcases hk4 with h | h | h | h <;> subst h
  · rw [aux_ok g 0 3 sid hok]; simp
  · obtain ⟨e0, h0, r0⟩ := hfail 0 (by omega)
    rw [aux_err_retry g 0 2 e0 h0 r0, aux_ok g 1 2 sid hok]
    simp
  · obtain ⟨e0, h0, r0⟩ := hfail 0 (by omega)
    obtain ⟨e1, h1, r1⟩ := hfail 1 (by omega)
    rw [aux_err_retry g 0 2 e0 h0 r0, aux_err_retry g 1 1 e1 h1 r1,
        aux_ok g 2 1 sid hok]
    simp
  · obtain ⟨e0, h0, r0⟩ := hfail 0 (by omega)
    obtain ⟨e1, h1, r1⟩ := hfail 1 (by omega)
    obtain ⟨e2, h2, r2⟩ := hfail 2 (by omega)
    rw [aux_err_retry g 0 2 e0 h0 r0, aux_err_retry g 1 1 e1 h1 r1,
        aux_err_retry g 2 0 e2 h2 r2, aux_ok g 3 0 sid hok]
    simp

/-- Witness for C5: two rate-limit failures then a success give 3 calls and
delays of 1000 and 2000 ms. -/
theorem claim5_retry_success_count_delays_witness :
    sendWithRetry gFailTwice 0 3 = (.ok "SM123".data, 3, [1000, 2000]) := by
  have h := claim5_retry_success_count_delays gFailTwice 2 "SM123".data
    (by omega)
    (fun i hi => ⟨eRate, by simp [gFailTwice, hi], by decide⟩)
    (by decide)
  simpa using h

/-! ## Status reconciliation: C1 and C2 -/

/-- Applying one status callback always overwrites the stored status with the
lowercased reported status, whatever was stored before. -/
theorem statusUpdate_status (cb : StatusCb) (t : Nat) (m : MessageRecord) :
    (statusUpdate cb t m).status = strToLower cb.MessageStatus := by
  unfold statusUpdate
  split <;> split <;> split <;> rfl

/-- Timestamp fields already set are never cleared by a status callback:
`$set` only writes fresh instants, never `null`. -/
theorem statusUpdate_keeps (cb : StatusCb) (t : Nat) (m : MessageRecord) :
    (m.sentAt.isSome = true → (statusUpdate cb t m).sentAt.isSome = true) ∧
    (m.deliveredAt.isSome = true → (statusUpdate cb t m).deliveredAt.isSome = true) ∧
    (m.readAt.isSome = true → (statusUpdate cb t m).readAt.isSome = true) ∧
    (m.failedAt.isSome = true → (statusUpdate cb t m).failedAt.isSome = true) := by
  unfold statusUpdate
  split <;> split <;> split <;> simp

/-- Transitivity of timestamp preservation. -/
theorem timestampsKept_trans {a b c : MessageRecord}
    (h1 : timestampsKept a b) (h2 : timestampsKept b c) : timestampsKept a c :=
  ⟨fun h => h2.1 (h1.1 h), fun h => h2.2.1 (h1.2.1 h),
   fun h => h2.2.2.1 (h1.2.2.1 h), fun h => h2.2.2.2 (h1.2.2.2 h)⟩

/-- Timestamp preservation extends over any sequence of callbacks. -/
theorem applyCallbacks_keeps (cbs : List (StatusCb × Nat)) :
    ∀ m : MessageRecord, timestampsKept m (applyCallbacks m cbs) := by
  induction cbs with
  | nil => intro m; exact ⟨id, id, id, id⟩
  | cons p rest ih =>
    intro m
    have h1 : timestampsKept m (statusUpdate p.1 p.2 m) := statusUpdate_keeps p.1 p.2 m
    have h2 := ih (statusUpdate p.1 p.2 m)
    exact timestampsKept_trans h1 (by simpa [applyCallbacks] using h2)

/-- Counterexample to C1 as stated: the status webhook is last-write-wins,
not monotonic.  Processing `delivered` and then a stale `sent` for the
tracked message `SM1` leaves the stored status `sent`, while the maximum of
the reported statuses in the order queued<sending<sent<delivered<read is
`delivered`. -/
theorem claim1_status_not_monotone_cex :
    (processStatusWebhook [m0] ⟨some "SM1".data, some "delivered".data, none, none⟩ 1).1 = 200 ∧
    ((processStatusWebhook
        ((processStatusWebhook [m0] ⟨some "SM1".data, some "delivered".data, none, none⟩ 1).2)
        ⟨some "SM1".data, some "sent".data, none, none⟩ 2).2.headD m0).status = "sent".data ∧
    statusMaxList "delivered".data ["sent".data] = "delivered".data ∧
    ¬ ((processStatusWebhook
        ((processStatusWebhook [m0] ⟨some "SM1".data, some "delivered".data, none, none⟩ 1).2)
        ⟨some "SM1".data, some "sent".data, none, none⟩ 2).2.headD m0).status =
      statusMaxList "delivered".data ["sent".data] := by decide

/-- C1 as amended: for any stored message and any sequence of status
callbacks for it, the final stored status equals the status reported by the
last callback (lowercased) — last-write-wins, which can move the status
backward — while no timestamp field already set is ever cleared by any
callback. -/
theorem claim1_last_write_wins (m : MessageRecord) (cbs : List (StatusCb × Nat))
    (cb : StatusCb) (t : Nat) :
    (applyCallbacks m (cbs ++ [(cb, t)])).status = strToLower cb.MessageStatus ∧
    timestampsKept m (applyCallbacks m cbs) := by
  constructor
  · unfold applyCallbacks
    rw [List.foldl_append]
    exact statusUpdate_status cb t _
  · exact applyCallbacks_keeps cbs m

/-- Witness for the amended C1 at a concrete record and callback sequence. -/
theorem claim1_last_write_wins_witness :
    (applyCallbacks m0 ([(cbDelivered, 1)] ++ [(cbSent, 2)])).status =
      strToLower cbSent.MessageStatus ∧
    timestampsKept m0 (applyCallbacks m0 [(cbDelivered, 1)]) :=
  claim1_last_write_wins m0 [(cbDelivered, 1)] cbSent 2

/-- Counterexample to C2 as stated: replaying the identical `delivered`
callback at a later instant is not a no-op beyond `updatedAt` — it also
re-stamps `deliveredAt` with the second processing time. -/
theorem claim2_duplicate_not_noop_cex :
    ¬ eqExceptUpdatedAt
        (statusUpdate cbDelivered 2 (statusUpdate cbDelivered 1 m0))
        (statusUpdate cbDelivered 1 m0) ∧
    (statusUpdate cbDelivered 2 (statusUpdate cbDelivered 1 m0)).deliveredAt = some 2 ∧
    (statusUpdate cbDelivered 1 m0).deliveredAt = some 1 := by decide

/-- C2 as amended: replaying an identical callback leaves the record exactly
as if only the second application had happened — the status, read flag and
error fields are unchanged and only `updatedAt` plus the timestamp field(s)
stamped by that status are refreshed to the later processing time; in
particular a duplicate processed at the same instant is an exact no-op. -/
theorem claim2_replay_absorption (cb : StatusCb) (t t' : Nat) (m : MessageRecord) :
    statusUpdate cb t (statusUpdate cb t' m) = statusUpdate cb t m ∧
    statusUpdate cb t (statusUpdate cb t m) = statusUpdate cb t m := by
  have habs : ∀ u u' : Nat, statusUpdate cb u (statusUpdate cb u' m) = statusUpdate cb u m := by
    intro u u'
    unfold statusUpdate
    by_cases h1 : cb.MessageStatus = "delivered".data <;>
      by_cases h2 : cb.MessageStatus = "read".data <;>
        by_cases h3 : cb.MessageStatus = "failed".data ∨ cb.MessageStatus = "undelivered".data <;>
          simp [h1, h2, h3]
  exact ⟨habs t t', habs t t⟩

/-! ## Delivery pipeline: C3 and C6 -/

/-- C6: a send-message request whose contact identifier is missing/falsy,
whose recipient is missing/falsy, or which carries no content at all (falsy
body and no media), is rejected with a 400 validation error and no message
document is ever created. -/
theorem claim6_validation_no_record (urlValid : Str → Bool) (envFrom : Option Str)
    (g : Nat → AttemptResult) (uuid : Str) (now : Nat) (req : SendRequest)
    (h : optTruthy req.contactId = false ∨ optTruthy req.toArg = false ∨
         (optTruthy req.body = false ∧ mediaTruthy req.mediaUrl = false)) :
    sendMessageRoute urlValid envFrom g uuid now req = ⟨400, false, none⟩ := by
  rcases h with h | h | h
  · simp [sendMessageRoute, h]
  · by_cases hc : optTruthy req.contactId <;> simp [sendMessageRoute, hc, h]
  · by_cases hc : optTruthy req.contactId <;> by_cases ht : optTruthy req.toArg <;>
      simp [sendMessageRoute, hc, ht, h.1, h.2]

/-- Witness for C6: the contentless request is rejected with 400 and no
record. -/
theorem claim6_validation_no_record_witness :
    sendMessageRoute urlNone envFromEx gOkFirst "u1".data 7 reqNoContent =
      ⟨400, false, none⟩ :=
  claim6_validation_no_record urlNone envFromEx gOkFirst "u1".data 7 reqNoContent
    (Or.inr (Or.inr ⟨by decide, by decide⟩))

/-- Counterexample to C3 as stated: when the gateway fails every attempt and
the retry budget is exhausted, the record is marked failed but the caller
receives a 500 error envelope, not the claimed 202 accepted result. -/
theorem claim3_failure_not_202_cex :
    (sendMessageRoute urlNone envFromEx gAlwaysFail "u1".data 7 reqEx).httpStatus = 500 ∧
    (sendMessageRoute urlNone envFromEx gAlwaysFail "u1".data 7 reqEx).httpStatus ≠ 202 ∧
    (sendMessageRoute urlNone envFromEx gAlwaysFail "u1".data 7 reqEx).success = false ∧
    ((sendMessageRoute urlNone envFromEx gAlwaysFail "u1".data 7 reqEx).record.map
      MessageRecord.status) = some "failed".data := by decide

/-- C3 as amended: for every validated and normalized submission on which
the gateway submission fails (including after the retry budget is
exhausted), the already-created record is updated to status `failed` with
`errorCode`, `errorMessage` and `failedAt` set, but the caller receives a
500 structured error envelope rather than the 202 accepted result — the
failure is recorded in the document and also surfaced to the caller as an
error response. -/
theorem claim3_failure_recorded_500 (urlValid : Str → Bool) (envFrom : Option Str)
    (g : Nat → AttemptResult) (uuid : Str) (now : Nat) (req : SendRequest)
    (e : GError) (n : Nat) (ds : List Nat)
    (hc : optTruthy req.contactId = true) (ht : optTruthy req.toArg = true)
    (hbody : (optTruthy req.body || mediaTruthy req.mediaUrl) = true)
    (fTo fFrom : Str) (hTo : formatPhoneNumber req.toArg = some fTo)
    (hFrom : formatPhoneNumber envFrom = some fFrom)
    (hMedia : (mediaTruthy req.mediaUrl &&
      (validateMediaUrls urlValid req.mediaUrl).isEmpty) = false)
    (hSend : sendWithRetry g 0 3 = (.err e, n, ds)) :
    (sendMessageRoute urlValid envFrom g uuid now req).httpStatus = 500 ∧
    (sendMessageRoute urlValid envFrom g uuid now req).success = false ∧
    ∃ r, (sendMessageRoute urlValid envFrom g uuid now req).record = some r ∧
      r.status = "failed".data ∧
      r.errorCode = some (errCodeOrDefault e) ∧
      r.errorMessage = some (errMsgOrDefault e) ∧
      r.failedAt = some now := by
  have hbm : (!optTruthy req.body && !mediaTruthy req.mediaUrl) = false := by
    cases hb : optTruthy req.body <;> cases hm : mediaTruthy req.mediaUrl <;> simp_all
  have h1 : (sendWithRetry g 0 3).1 = .err e := by rw [hSend]
  simp only [sendMessageRoute, hc, ht, hbm, hTo, hFrom, hMedia, h1,
    Bool.not_true, Bool.false_and, if_false, Bool.not_false]
  refine ⟨rfl, rfl, _, rfl, rfl, rfl, rfl, rfl⟩

/-! ## Realtime fanout: C9 -/

/-- C9: joining a conversation room removes the connection from every room
it previously joined (last-join-wins), so after joining `c2` and then `c3` a
broadcast to `c2` does not reach the connection; a join without a
conversation id is acknowledged with a structured error and changes
nothing; and after any successful join the connection belongs to exactly
the one room it just joined. -/
theorem claim9_single_room (clients : List (Str × ClientState)) (sid c2 c3 : Str)
    (h2 : c2.isEmpty = false) (h3 : c3.isEmpty = false) (hne : c2 ≠ c3) :
    sid ∉ broadcastReceivers
      ((joinHandler ((joinHandler clients sid (some c2)).1) sid (some c3)).1) c2 ∧
    (joinHandler clients sid none).2 = .errJoin "contactId is required".data ∧
    (∀ p ∈ (joinHandler clients sid (some c3)).1, p.1 = sid → p.2.rooms = [c3]) := by
  refine ⟨?_, rfl, ?_⟩
  · intro hmem
    simp only [joinHandler, h2, h3, Bool.false_eq_true, if_false] at hmem
    simp only [broadcastReceivers, List.mem_map, List.mem_filter] at hmem
    obtain ⟨p, ⟨hp, hcontains⟩, hfst⟩ := hmem
    obtain ⟨q, hq, hpq⟩ := hp
    by_cases hqs : q.1 = sid
    · rw [if_pos hqs] at hpq
      subst hpq
      simp only [List.contains, List.elem] at hcontains
      have : c2 = c3 := by
        rcases Bool.or_eq_true_iff.mp hcontains with hx | hx
        · exact beq_iff_eq.mp hx
        · simp [List.elem] at hx
      exact hne this
    · rw [if_neg hqs] at hpq
      subst hpq
      exact hqs hfst
  · intro p hp hps
    simp only [joinHandler, h3, Bool.false_eq_true, if_false] at hp
    obtain ⟨q, hq, hpq⟩ := List.mem_map.mp hp
    by_cases hqs : q.1 = sid
    · rw [if_pos hqs] at hpq
      subst hpq
      rfl
    · rw [if_neg hqs] at hpq
      subst hpq
      exact absurd hps hqs

/-- Witness for C9 at a concrete registry: s1 joins C2 then C3 and no longer
receives broadcasts to C2. -/
theorem claim9_single_room_witness :
    "s1".data ∉ broadcastReceivers
      ((joinHandler ((joinHandler clientsEx "s1".data (some "C2".data)).1)
        "s1".data (some "C3".data)).1) "C2".data ∧
    (joinHandler clientsEx "s1".data none).2 = .errJoin "contactId is required".data ∧
    (∀ p ∈ (joinHandler clientsEx "s1".data (some "C3".data)).1,
      p.1 = "s1".data → p.2.rooms = ["C3".data]) :=
  claim9_single_room clientsEx "s1".data "C2".data "C3".data
    (by decide) (by decide) (by decide)

/-- Witness for the amended C3 at the concrete always-failing gateway. -/
theorem claim3_failure_recorded_500_witness :
    (sendMessageRoute urlNone envFromEx gAlwaysFail "u1".data 7 reqEx).httpStatus = 500 ∧
    (sendMessageRoute urlNone envFromEx gAlwaysFail "u1".data 7 reqEx).success = false ∧
    ∃ r, (sendMessageRoute urlNone envFromEx gAlwaysFail "u1".data 7 reqEx).record = some r ∧
      r.status = "failed".data ∧
      r.errorCode = some (errCodeOrDefault eRate) ∧
      r.errorMessage = some (errMsgOrDefault eRate) ∧
      r.failedAt = some 7 :=
  claim3_failure_recorded_500 urlNone envFromEx gAlwaysFail "u1".data 7 reqEx
    eRate 4 [1000, 2000, 4000] (by decide) (by decide) (by decide)
    "whatsapp:+15551234567".data "whatsapp:+14155238886".data
    (by decide) (by decide) (by decide) (by decide)

/-! ## String lemmas for the phone number normalizer -/

/-- A string is always a prefix of itself followed by anything. -/
theorem strStartsWith_append_self (x y : Str) : strStartsWith (x ++ y) x = true := by
  induction x with
  | nil => cases y <;> rfl
  | cons a as ih => simp [strStartsWith, ih]

/-- Extending both strings by the same head preserves the prefix test. -/
theorem strStartsWith_cons (c : Char) (s p : Str) (h : strStartsWith s p = true) :
    strStartsWith (c :: s) (c :: p) = true := by
  simp [strStartsWith, h]

/-- A decimal digit is not a whitespace character. -/
theorem digit_not_ws (c : Char) (h : c.isDigit = true) : c.isWhitespace = false := by
  cases hw : c.isWhitespace
  · rfl
  · exfalso
    simp only [Char.isWhitespace, Bool.or_eq_true, decide_eq_true_eq] at hw
    rcases hw with ((hw | hw) | hw) | hw <;> subst hw <;> exact absurd h (by decide)

/-- Neither a digit nor `+` is whitespace. -/
theorem plusOrDigit_not_ws (c : Char) (h : isPlusOrDigit c = true) :
    c.isWhitespace = false := by
  rcases Bool.or_eq_true_iff.mp h with hd | hp
  · exact digit_not_ws c hd
  · rw [beq_iff_eq] at hp; subst hp; decide

/-- Every branch of the UAE disambiguation emits a string headed by `+`. -/
theorem uaeDisambiguate_head (d : Str) : ∃ rest, uaeDisambiguate d = '+' :: rest := by
  unfold uaeDisambiguate
  split
  · exact ⟨d, rfl⟩
  · split
    · exact ⟨_, rfl⟩
    · split
      · exact ⟨_, rfl⟩
      · exact ⟨_, rfl⟩

/-- The cleanup step always emits a string headed by `+`. -/
theorem plusCleanup_head (x : Str) : ∃ rest, plusCleanup x = '+' :: rest := by
  unfold plusCleanup
  split
  · exact ⟨_, rfl⟩
  · exact uaeDisambiguate_head _

/-- The UAE disambiguation of a digit string contains only `+` and digits. -/
theorem mem_uaeDisambiguate (d : Str) (hd : ∀ ch ∈ d, Char.isDigit ch = true) :
    ∀ ch ∈ uaeDisambiguate d, isPlusOrDigit ch = true := by
  intro ch hch
  unfold uaeDisambiguate at hch
  have hplus : isPlusOrDigit '+' = true := by decide
  have hnum : ∀ x ∈ ("+971".data : Str), isPlusOrDigit x = true := by decide
  split at hch
  · rcases List.mem_cons.mp hch with h | h
    · subst h; exact hplus
    · exact Bool.or_eq_true_iff.mpr (.inl (hd ch h))
  · split at hch
    · rcases List.mem_append.mp hch with h | h
      · exact hnum ch h
      · exact Bool.or_eq_true_iff.mpr (.inl (hd ch (List.mem_of_mem_drop h)))
    · split at hch <;>
      · rcases List.mem_append.mp hch with h | h
        · exact hnum ch h
        · exact Bool.or_eq_true_iff.mpr (.inl (hd ch h))

/-- The cleanup step emits only `+` and digit characters. -/
theorem mem_plusCleanup (x : Str) : ∀ ch ∈ plusCleanup x, isPlusOrDigit ch = true := by
  intro ch hch
  unfold plusCleanup at hch
  split at hch
  · rcases List.mem_cons.mp hch with h | h
    · subst h; decide
    · have := List.of_mem_filter h
      exact Bool.or_eq_true_iff.mpr (.inl this)
  · refine mem_uaeDisambiguate _ ?_ ch hch
    intro c hc
    exact List.of_mem_filter hc

/-- Left trimming is idempotent. -/
theorem trimLeft_idem (l : Str) : trimLeft (trimLeft l) = trimLeft l :=
  List.dropWhile_idempotent _ _

/-- Right trimming coincides with Mathlib's `rdropWhile`. -/
theorem trimRight_eq_rdropWhile (l : Str) :
    trimRight l = List.rdropWhile Char.isWhitespace l := rfl

/-- Right trimming is idempotent. -/
theorem trimRight_idem (l : Str) : trimRight (trimRight l) = trimRight l := by
  rw [trimRight_eq_rdropWhile, trimRight_eq_rdropWhile]
  exact List.rdropWhile_idempotent _ _

/-- Dropping a prefix never lengthens a list. -/
theorem dropWhile_length_le (p : Char → Bool) (l : Str) :
    (l.dropWhile p).length ≤ l.length := by
  induction l with
  | nil => simp
  | cons b u ih =>
    rw [List.dropWhile_cons]
    split
    · exact Nat.le_trans ih (by simp)
    · simp

/-- A list unchanged by left trimming has a non-whitespace head. -/
theorem head_not_ws_of_trimLeft_self (a : Char) (t : Str)
    (h : trimLeft (a :: t) = a :: t) : a.isWhitespace = false := by
  by_cases hw : a.isWhitespace = true
  · exfalso
    unfold trimLeft at h
    rw [List.dropWhile_cons, if_pos hw] at h
    have hlen := congrArg List.length h
    have hle : (t.dropWhile Char.isWhitespace).length ≤ t.length :=
      dropWhile_length_le _ t
    simp at hlen
    omega
  · simpa using hw

/-- Right trimming a left-trimmed list leaves nothing for a further left
trim to remove. -/
theorem trimLeft_trimRight_of_self (X : Str) (hX : trimLeft X = X) :
    trimLeft (trimRight X) = trimRight X := by
  cases X with
  | nil => rfl
  | cons a t =>
    have ha : a.isWhitespace = false := head_not_ws_of_trimLeft_self a t hX
    have hpre : trimRight (a :: t) <+: (a :: t) := by
      rw [trimRight_eq_rdropWhile]
      exact List.rdropWhile_prefix _ _
    cases hE : trimRight (a :: t) with
    | nil => rfl
    | cons b u =>
      rw [hE] at hpre
      obtain ⟨s, hs⟩ := hpre
      have hba : b = a := by
        have := congrArg (fun l => l.headD ' ') hs
        simpa using this
      subst hba
      unfold trimLeft
      rw [List.dropWhile_cons, if_neg (by simp [ha])]

/-- JS `trim` is idempotent. -/
theorem strTrim_idem (l : Str) : strTrim (strTrim l) = strTrim l := by
  unfold strTrim
  rw [trimLeft_trimRight_of_self (trimLeft l) (trimLeft_idem l), trimRight_idem]

/-- Trimming a string with no whitespace at all is the identity. -/
theorem strTrim_eq_self_of_nonWs (l : Str) (h : ∀ c ∈ l, c.isWhitespace = false) :
    strTrim l = l := by
  have h1 : trimLeft l = l := by
    cases l with
    | nil => rfl
    | cons a t =>
      unfold trimLeft
      rw [List.dropWhile_cons, if_neg (by simp [h a (List.mem_cons_self a t)])]
  unfold strTrim
  rw [h1]
  rw [trimRight_eq_rdropWhile]
  rw [List.rdropWhile_eq_self_iff]
  intro hl
  simp [h _ (List.getLast_mem hl)]

/-! ## Phone number normalizer: C7, C8, C10 -/

/-- Counterexample to C7 as stated: an input already carrying the
`whatsapp:` marker is returned as-is with no validation at all, so the
normalizer can succeed on a result with zero digits — far outside the
claimed 10-15 digit window. -/
theorem claim7_digit_window_cex :
    formatPhoneNumber (some "whatsapp:abc".data) = some "whatsapp:abc".data ∧
    (("whatsapp:abc".data).filter Char.isDigit).length = 0 ∧
    ¬ 10 ≤ (("whatsapp:abc".data).filter Char.isDigit).length := by decide

/-- C7 as amended: for inputs that do not already carry the `whatsapp:`
marker, the normalizer succeeds only with a result of 10-15 digits after
prefix stripping (marker-bearing inputs bypass validation entirely), and a
submission with the unparsable recipient `"abc"` is rejected with a 400 and
zero records created. -/
theorem claim7_digit_window_amended :
    (∀ s r : Str, strStartsWith (strTrim s) waMarker = false →
      formatPhoneNumber (some s) = some r →
      10 ≤ (r.filter Char.isDigit).length ∧ (r.filter Char.isDigit).length ≤ 15) ∧
    formatPhoneNumber (some "abc".data) = none ∧
    sendMessageRoute urlNone envFromEx gOkFirst "u1".data 7 reqAbc =
      ⟨400, false, none⟩ := by
  refine ⟨?_, by decide, by decide⟩
  intro s r hM h
  simp only [formatPhoneNumber] at h
  by_cases hs : s.isEmpty = true
  · simp [hs] at h
  · rw [if_neg hs, if_neg (by simp [hM])] at h
    by_cases hW : 10 ≤ (digitsPart (plusCleanup ((strTrim s).filter isPlusOrDigit))).length ∧
        (digitsPart (plusCleanup ((strTrim s).filter isPlusOrDigit))).length ≤ 15 ∧
        (digitsPart (plusCleanup ((strTrim s).filter isPlusOrDigit))).all Char.isDigit = true
    · rw [if_pos hW] at h
      have h := Option.some.inj h
      subst h
      obtain ⟨rest, hrest⟩ := plusCleanup_head ((strTrim s).filter isPlusOrDigit)
      have hd : digitsPart (plusCleanup ((strTrim s).filter isPlusOrDigit)) = rest := by
        rw [hrest]
        unfold digitsPart
        rw [if_pos (by simp [strStartsWith])]
        simp
      rw [hd] at hW
      have hfil : (waMarker ++ plusCleanup ((strTrim s).filter isPlusOrDigit)).filter
          Char.isDigit = rest := by
        rw [List.filter_append, hrest]
        have h1 : waMarker.filter Char.isDigit = [] := by decide
        rw [h1, List.filter_cons, if_neg (by decide)]
        rw [List.filter_eq_self.mpr]
        · simp
        · intro a ha
          exact (List.all_eq_true.mp hW.2.2) a ha
      rw [hfil]
      exact ⟨hW.1, hW.2.1⟩
    · rw [if_neg hW] at h
      exact absurd h (by simp)

/-- Witness for the amended C7: a local-format UAE number normalizes to a
result inside the digit window. -/
theorem claim7_digit_window_amended_witness :
    10 ≤ (("whatsapp:+971501234567".data).filter Char.isDigit).length ∧
    (("whatsapp:+971501234567".data).filter Char.isDigit).length ≤ 15 :=
  claim7_digit_window_amended.1 "0501234567".data "whatsapp:+971501234567".data
    (by decide) (by decide)

/-- C8: every successful normalization yields a single canonical
`whatsapp:`-prefixed address, and re-normalizing that canonical output
returns it unchanged — the normalizer is idempotent on its own image. -/
theorem claim8_normalize_idempotent (s r : Str)
    (h : formatPhoneNumber (some s) = some r) :
    strStartsWith r waMarker = true ∧ formatPhoneNumber (some r) = some r := by
  simp only [formatPhoneNumber] at h
  by_cases hs : s.isEmpty = true
  · simp [hs] at h
  · rw [if_neg hs] at h
    by_cases hM : strStartsWith (strTrim s) waMarker = true
    · rw [if_pos hM] at h
      have h := Option.some.inj h
      subst h
      refine ⟨hM, ?_⟩
      simp only [formatPhoneNumber]
      have hne : (strTrim s).isEmpty = true → False := by
        intro hE
        rw [List.isEmpty_iff] at hE
        rw [hE] at hM
        exact absurd hM (by decide)
      rw [if_neg hne, strTrim_idem, if_pos hM]
    · rw [if_neg hM] at h
      by_cases hW : 10 ≤ (digitsPart (plusCleanup ((strTrim s).filter isPlusOrDigit))).length ∧
          (digitsPart (plusCleanup ((strTrim s).filter isPlusOrDigit))).length ≤ 15 ∧
          (digitsPart (plusCleanup ((strTrim s).filter isPlusOrDigit))).all Char.isDigit = true
      · rw [if_pos hW] at h
        have h := Option.some.inj h
        subst h
        have hchars : ∀ c ∈ waMarker ++ plusCleanup ((strTrim s).filter isPlusOrDigit),
            c.isWhitespace = false := by
          intro c hc
          rcases List.mem_append.mp hc with hc | hc
          · have hws : ∀ c ∈ waMarker, c.isWhitespace = false := by decide
            exact hws c hc
          · exact plusOrDigit_not_ws c (mem_plusCleanup _ c hc)
        refine ⟨strStartsWith_append_self waMarker _, ?_⟩
        simp only [formatPhoneNumber]
        have hne : (waMarker ++ plusCleanup ((strTrim s).filter isPlusOrDigit)).isEmpty =
            true → False := by
          intro hE
          rw [List.isEmpty_iff] at hE
          exact absurd (congrArg List.length hE) (by simp [waMarker])
        rw [if_neg hne, strTrim_eq_self_of_nonWs _ hchars,
          if_pos (strStartsWith_append_self waMarker _)]
      · rw [if_neg hW] at h
        exact absurd h (by simp)

/-- Witness for C8: normalizing a local UAE number and then re-normalizing
the canonical output returns it unchanged. -/
theorem claim8_normalize_idempotent_witness :
    strStartsWith "whatsapp:+971501234567".data waMarker = true ∧
    formatPhoneNumber (some "whatsapp:+971501234567".data) =
      some "whatsapp:+971501234567".data :=
  claim8_normalize_idempotent "0501234567".data "whatsapp:+971501234567".data
    (by decide)

/-- Counterexample to C10 as stated: the lone digit string `"0"` has a
leading zero, but the code drops it only when at least one further digit
follows, so the disambiguation yields `+9710` where the claim predicts
`+971`. -/
theorem claim10_uae_default_cex :
    uaeDisambiguate ['0'] = "+9710".data ∧
    uaeDisambiguateClaim ['0'] = "+971".data ∧
    uaeDisambiguate ['0'] ≠ uaeDisambiguateClaim ['0'] := by decide

/-- C10 as amended: the claimed three-case UAE mapping is exact for every
digit string except the lone `"0"` (a leading `0` is dropped only when
followed by another digit); inside the normalizer every `+`-less input is
disambiguated by exactly this mapping; and the hardcoded default makes
every disambiguated number start with `+971`. -/
theorem claim10_uae_default_amended :
    (∀ d : Str, d ≠ ['0'] → uaeDisambiguate d = uaeDisambiguateClaim d) ∧
    (∀ s r : Str, strStartsWith (strTrim s) waMarker = false →
      strStartsWith ((strTrim s).filter isPlusOrDigit) ['+'] = false →
      formatPhoneNumber (some s) = some r →
      r = waMarker ++
        uaeDisambiguate (((strTrim s).filter isPlusOrDigit).filter Char.isDigit)) ∧
    (∀ d : Str, strStartsWith (uaeDisambiguate d) "+971".data = true) := by
  refine ⟨?_, ?_, ?_⟩
  · intro d hd
    unfold uaeDisambiguate uaeDisambiguateClaim
    by_cases h1 : strStartsWith d "971".data = true
    · rw [if_pos h1, if_pos h1]
    · rw [if_neg h1, if_neg h1]
      by_cases h2 : strStartsWith d "0".data = true
      · have hlen : d.length > 1 := by
          cases d with
          | nil => exact absurd h2 (by decide)
          | cons a t =>
            cases t with
            | nil =>
              exfalso
              have ha : a = '0' := by
                have := h2
                simp [strStartsWith] at this
                exact this
              exact hd (by rw [ha])
            | cons b u => simp
        rw [if_pos ⟨h2, hlen⟩, if_pos h2]
      · rw [if_neg (fun hcon => h2 hcon.1), if_neg h2]
        split <;> rfl
  · intro s r hM hP h
    simp only [formatPhoneNumber] at h
    by_cases hs : s.isEmpty = true
    · simp [hs] at h
    · rw [if_neg hs, if_neg (by simp [hM])] at h
      have hpc : plusCleanup ((strTrim s).filter isPlusOrDigit) =
          uaeDisambiguate (((strTrim s).filter isPlusOrDigit).filter Char.isDigit) := by
        unfold plusCleanup
        rw [if_neg (by simp [hP])]
      rw [hpc] at h
      split at h
      · exact (Option.some.inj h).symm
      · exact absurd h (by simp)
  · intro d
    unfold uaeDisambiguate
    split
    · have heq : ("+971".data : Str) = '+' :: "971".data := rfl
      rw [heq]
      exact strStartsWith_cons '+' d "971".data (by assumption)
    · split
      · exact strStartsWith_append_self "+971".data _
      · split
        · exact strStartsWith_append_self "+971".data _
        · exact strStartsWith_append_self "+971".data _

/-- Witness for the amended C10: on the digit string `501234567` the code
and the claimed mapping agree, the normalizer routes a local UAE input
through the disambiguation, and the result starts with `+971`. -/
theorem claim10_uae_default_amended_witness :
    uaeDisambiguate "501234567".data = uaeDisambiguateClaim "501234567".data ∧
    "whatsapp:+971501234567".data = waMarker ++
      uaeDisambiguate (((strTrim "0501234567".data).filter isPlusOrDigit).filter
        Char.isDigit) ∧
    strStartsWith (uaeDisambiguate "501234567".data) "+971".data = true :=
  ⟨claim10_uae_default_amended.1 "501234567".data (by decide),
   claim10_uae_default_amended.2.1 "0501234567".data "whatsapp:+971501234567".data
     (by decide) (by decide) (by decide),
   claim10_uae_default_amended.2.2 "501234567".data⟩

end WhatsappWidget
